import Mathlib

/-!
Verification of the credential-binding synthesizer in
`src/servicebroker/broker/bind.go` (package `broker`).

The Go code under scrutiny is `Builder.Build` and its helpers: a pure
transformation from a `Builder` configuration to a loosely-typed binding
record obtained by JSON-marshalling a `binding` struct and unmarshalling the
bytes into a generic value.

Modelling conventions:
* Go strings are Lean `String`s, Go `int` ports are Lean `Int` (no overflow
  is relevant to any of the derivations here).
* The Go map `ProtocolPorts map[string]int` is modelled as an association
  list with the usual first-match lookup; Go map keys are unique, so
  first-match lookup coincides with Go map indexing.
* The Go map `protocols map[string]protocol` produced by
  `Builder.protocols()` is modelled as an association list.  Its contents do
  not depend on Go's randomized map-iteration order: the loop's `switch`
  recognizes only the key `"amqp"`, and `"management"` is inserted after the
  loop, so the resulting map is exactly determined by whether `"amqp"` is a
  key of `ProtocolPorts`.
* `encoding/json` is modelled by an explicit JSON value type `JVal`.
  `json.Marshal` emits struct fields in declaration order, honours the
  `json:"...,omitempty"` tags (an empty string is omitted), and emits map
  entries sorted by key.  `json.Marshal` cannot fail on the `binding` struct
  (its field types are strings, string slices, bools, ints and a
  string-keyed map — none of the failing cases of `encoding/json`), and
  `json.Unmarshal` of just-marshalled bytes into `interface{}` cannot fail
  either; the model mirrors this by making marshalling total.
* Evaluating `b.Hostnames[0]` in Go panics with an index-out-of-range
  runtime error when `Hostnames` is empty; `Build` surfaces this as the
  explicit outcome `BuildOutcome.panicked`.  No code path of the repository
  constructs a configuration error; the constructor
  `BuildOutcome.configurationError` exists only as vocabulary for the
  spec's error taxonomy (§7) so that statements about it can be settled.
-/

/-- JSON values, as produced by Go's `encoding/json` for the types at hand.
Numbers are integers here because every number marshalled by this code is a
Go `int`. -/
inductive JVal where
  | jstr : String → JVal
  | jint : Int → JVal
  | jbool : Bool → JVal
  | jarr : List JVal → JVal
  | jobj : List (String × JVal) → JVal
deriving Repr

/-- Go: `type Builder struct { ... }` (bind.go lines 62-70). -/
structure Builder where
  MgmtDomain : String
  Hostnames : List String
  VHost : String
  Username : String
  Password : String
  TLS : Bool
  ProtocolPorts : List (String × Int)
deriving Repr, DecidableEq

/-- Go: `type protocol struct { ... }` (bind.go lines 138-149), fields in
declaration order; `VHost` and `Path` carry `omitempty`. -/
structure protocol where
  Username : String
  Password : String
  VHost : String
  Hostname : String
  Hostnames : List String
  URI : String
  URIs : List String
  Port : Int
  TLS : Bool
  Path : String
deriving Repr, DecidableEq

/-- Go: `type binding struct { ... }` (bind.go lines 121-134), fields in
declaration order.  The `Protocols` map is modelled as an association
list. -/
structure binding where
  DashboardURL : String
  Username : String
  Password : String
  Hostname : String
  Hostnames : List String
  HTTPAPIURI : String
  HTTPAPIURIs : List String
  URI : String
  URIs : List String
  VHost : String
  TLS : Bool
  Protocols : List (String × protocol)
deriving Repr, DecidableEq

/-- First-match lookup in a string-keyed association list; coincides with Go
map indexing because Go map keys are unique. -/
def lookupKV {α : Type} (k : String) : List (String × α) → Option α
  | [] => none
  | (k', v) :: rest => if k = k' then some v else lookupKV k rest

/-- Go: `func (b Builder) dashboardURL() string`. -/
def Builder.dashboardURL (b : Builder) : String :=
  "http://" ++ b.MgmtDomain ++ "/#/login/" ++ b.Username ++ "/" ++ b.Password

/-- Go: `func (b Builder) uriForBinding(hostname string) string`. -/
def Builder.uriForBinding (b : Builder) (hostname : String) : String :=
  "amqp" ++ "://" ++ b.Username ++ ":" ++ b.Password ++ "@" ++ hostname ++ "/" ++ b.VHost

/-- Go: `func (b Builder) urisForBinding() []string`. -/
def Builder.urisForBinding (b : Builder) : List String :=
  b.Hostnames.map b.uriForBinding

/-- Go: `func (b Builder) httpapiuriForBinding() string`. -/
def Builder.httpapiuriForBinding (b : Builder) : String :=
  "http://" ++ b.Username ++ ":" ++ b.Password ++ "@" ++ b.MgmtDomain ++ "/api/"

/-- Go: `func (b Builder) httpapiurisForBinding() []string`. -/
def Builder.httpapiurisForBinding (b : Builder) : List String :=
  [b.httpapiuriForBinding]

/-- Go: `func (b Builder) uriForAMQP(hostname string, port int) string`. -/
def Builder.uriForAMQP (b : Builder) (hostname : String) (port : Int) : String :=
  "amqp" ++ "://" ++ b.Username ++ ":" ++ b.Password ++ "@" ++ hostname ++ ":"
    ++ toString port ++ "/" ++ b.VHost

/-- Go: `func (b Builder) urisForAMQP(port int) []string`. -/
def Builder.urisForAMQP (b : Builder) (port : Int) : List String :=
  b.Hostnames.map (fun hostname => b.uriForAMQP hostname port)

/-- Go: `func (b Builder) uriForManagement(hostname string, port int) string`. -/
def Builder.uriForManagement (b : Builder) (hostname : String) (port : Int) : String :=
  "http://" ++ b.Username ++ ":" ++ b.Password ++ "@" ++ hostname ++ ":"
    ++ toString port ++ "/api/"

/-- Go: `func (b Builder) urisForManagement(port int) []string`. -/
def Builder.urisForManagement (b : Builder) (port : Int) : List String :=
  b.Hostnames.map (fun hostname => b.uriForManagement hostname port)

/-- Go: `func (b Builder) addAMQPProtocol(port int, tls bool) protocol`.
`b.Hostnames[0]` is written `headD ""`; `Build` establishes non-emptiness
before any field of its result is observed (empty `Hostnames` is the
`panicked` outcome). -/
def Builder.addAMQPProtocol (b : Builder) (port : Int) (tls : Bool) : protocol where
  Username := b.Username
  Password := b.Password
  VHost := b.VHost
  Hostname := b.Hostnames.headD ""
  Hostnames := b.Hostnames
  URI := b.uriForAMQP (b.Hostnames.headD "") port
  URIs := b.urisForAMQP port
  Port := port
  TLS := tls
  Path := ""

/-- Go: `func (b Builder) addMgmtProtocol() protocol`. -/
def Builder.addMgmtProtocol (b : Builder) : protocol where
  Username := b.Username
  Password := b.Password
  VHost := ""
  Hostname := b.Hostnames.headD ""
  Hostnames := b.Hostnames
  URI := b.uriForManagement (b.Hostnames.headD "") 15672
  URIs := b.urisForManagement 15672
  Port := 15672
  TLS := false
  Path := "/api/"

/-- Go: `func (b Builder) protocols() protocols`.  The loop over the
`ProtocolPorts` map recognizes only the key `"amqp"` (the `switch` has a
single case); after the loop `"management"` is always inserted.  The
resulting map is rendered as an association list, which happens to be
sorted by key (`"amqp" < "management"`). -/
def Builder.protocols (b : Builder) : List (String × protocol) :=
  (match lookupKV "amqp" b.ProtocolPorts with
    | some port => [("amqp", b.addAMQPProtocol port false)]
    | none => []) ++ [("management", b.addMgmtProtocol)]

/-- The `binding` struct literal constructed inside `Builder.Build`
(bind.go lines 73-86). -/
def Builder.mkBinding (b : Builder) : binding where
  DashboardURL := b.dashboardURL
  Username := b.Username
  Password := b.Password
  Hostname := b.Hostnames.headD ""
  Hostnames := b.Hostnames
  HTTPAPIURI := b.httpapiuriForBinding
  HTTPAPIURIs := b.httpapiurisForBinding
  URI := b.uriForBinding (b.Hostnames.headD "")
  URIs := b.urisForBinding
  VHost := b.VHost
  TLS := b.TLS
  Protocols := b.protocols

/-- Lexicographic comparison of character lists by code point, the order in
which Go's `encoding/json` emits map keys. -/
def leChars : List Char → List Char → Bool
  | [], _ => true
  | _ :: _, [] => false
  | a :: as, b :: bs =>
    if a.toNat < b.toNat then true
    else if b.toNat < a.toNat then false
    else leChars as bs

/-- Lexicographic string comparison by code point. -/
def strLe (a b : String) : Bool :=
  leChars a.data b.data

/-- Insert a keyed entry into a key-sorted list (Go's `encoding/json`
marshals map entries sorted by key). -/
def insertSortedKV {α : Type} (kv : String × α) : List (String × α) → List (String × α)
  | [] => [kv]
  | x :: xs => if strLe kv.1 x.1 then kv :: x :: xs else x :: insertSortedKV kv xs

/-- Sort a string-keyed association list by key, as Go's `encoding/json`
does when marshalling a map. -/
def sortKV {α : Type} : List (String × α) → List (String × α)
  | [] => []
  | kv :: rest => insertSortedKV kv (sortKV rest)

/-- `json.Marshal` of a `protocol` value: fields in declaration order,
`vhost` and `path` omitted when empty (`omitempty`). -/
def marshalProtocol (p : protocol) : JVal :=
  .jobj ([("username", .jstr p.Username), ("password", .jstr p.Password)]
    ++ (if p.VHost = "" then [] else [("vhost", .jstr p.VHost)])
    ++ [("host", .jstr p.Hostname),
        ("hosts", .jarr (p.Hostnames.map .jstr)),
        ("uri", .jstr p.URI),
        ("uris", .jarr (p.URIs.map .jstr)),
        ("port", .jint p.Port),
        ("ssl", .jbool p.TLS)]
    ++ (if p.Path = "" then [] else [("path", .jstr p.Path)]))

/-- `json.Marshal` of a `binding` value: fields in declaration order; the
`protocols` map is marshalled with its keys sorted. -/
def marshalBinding (r : binding) : JVal :=
  .jobj [("dashboard_url", .jstr r.DashboardURL),
         ("username", .jstr r.Username),
         ("password", .jstr r.Password),
         ("hostname", .jstr r.Hostname),
         ("hostnames", .jarr (r.Hostnames.map .jstr)),
         ("http_api_uri", .jstr r.HTTPAPIURI),
         ("http_api_uris", .jarr (r.HTTPAPIURIs.map .jstr)),
         ("uri", .jstr r.URI),
         ("uris", .jarr (r.URIs.map .jstr)),
         ("vhost", .jstr r.VHost),
         ("ssl", .jbool r.TLS),
         ("protocols", .jobj ((sortKV r.Protocols).map
            (fun kv => (kv.1, marshalProtocol kv.2))))]

/-- The outcomes of `Builder.Build`.  `ok` carries the generic value the Go
code returns (unmarshalling freshly marshalled bytes into `interface{}`
reproduces the JSON tree).  `encodingError` is the `err` return path of
`Build` (never reachable: marshalling the `binding` struct is total).
`panicked` is the index-out-of-range runtime panic from `b.Hostnames[0]`.
`configurationError` is never produced by the code; it exists to state
claims drawn from the spec's error taxonomy. -/
inductive BuildOutcome where
  | ok : JVal → BuildOutcome
  | encodingError : BuildOutcome
  | panicked : BuildOutcome
  | configurationError : BuildOutcome
deriving Repr

/-- Go: `func (b Builder) Build() (output interface{}, err error)`.
With empty `Hostnames` the struct-literal field `Hostname: b.Hostnames[0]`
panics before any value is returned. -/
def Builder.Build (b : Builder) : BuildOutcome :=
  match b.Hostnames with
  | [] => .panicked
  | _ :: _ => .ok (marshalBinding b.mkBinding)

/-- Field lookup in a JSON object. -/
def jlookup (j : JVal) (k : String) : Option JVal :=
  match j with
  | .jobj l => lookupKV k l
  | _ => none

/-- Whether a JSON object carries a field of the given name. -/
def jmember (j : JVal) (k : String) : Bool :=
  (jlookup j k).isSome

/-- The field names of a JSON object, in order. -/
def jkeys (j : JVal) : List String :=
  match j with
  | .jobj l => l.map Prod.fst
  | _ => []

/-- The Scenario A configuration of the spec (§8): one hostname, root vhost,
credentials `u`/`p`, management endpoint `10.0.0.5:15672`, only `amqp` in
`ProtocolPorts`. -/
def scenarioA : Builder where
  MgmtDomain := "10.0.0.5:15672"
  Hostnames := ["10.0.0.5"]
  VHost := "%2f"
  Username := "u"
  Password := "p"
  TLS := false
  ProtocolPorts := [("amqp", 5672)]

/-- Decode a JSON value as a string (Go: unmarshalling into a `string`
field). -/
def asStr : JVal → Option String
  | .jstr s => some s
  | _ => none

/-- Decode a JSON value as an integer (Go: unmarshalling into an `int`
field). -/
def asInt : JVal → Option Int
  | .jint n => some n
  | _ => none

/-- Decode a JSON value as a boolean (Go: unmarshalling into a `bool`
field). -/
def asBool : JVal → Option Bool
  | .jbool v => some v
  | _ => none

/-- Decode a list of JSON values as strings. -/
def strList : List JVal → Option (List String)
  | [] => some []
  | x :: xs =>
    match asStr x, strList xs with
    | some s, some rest => some (s :: rest)
    | _, _ => none

/-- Decode a JSON value as a string slice (Go: unmarshalling into a
`[]string` field). -/
def asStrArr : JVal → Option (List String)
  | .jarr l => strList l
  | _ => none

/-- Decoding a marshalled `protocol` back through its JSON tags, as Go's
`json.Unmarshal` would populate the struct: absent `omitempty` fields
(`vhost`, `path`) decode to the zero value `""`. -/
def unmarshalProtocol (j : JVal) : Option protocol := do
  let u ← (jlookup j "username").bind asStr
  let pw ← (jlookup j "password").bind asStr
  let vh := (((jlookup j "vhost").bind asStr).getD "")
  let hn ← (jlookup j "host").bind asStr
  let hns ← (jlookup j "hosts").bind asStrArr
  let uri ← (jlookup j "uri").bind asStr
  let uris ← (jlookup j "uris").bind asStrArr
  let port ← (jlookup j "port").bind asInt
  let tls ← (jlookup j "ssl").bind asBool
  let path := (((jlookup j "path").bind asStr).getD "")
  some ⟨u, pw, vh, hn, hns, uri, uris, port, tls, path⟩

/-- Decode every entry of a JSON object as a `protocol`. -/
def protocolEntries : List (String × JVal) → Option (List (String × protocol))
  | [] => some []
  | (k, v) :: rest =>
    match unmarshalProtocol v, protocolEntries rest with
    | some p, some ps => some ((k, p) :: ps)
    | _, _ => none

/-- Decode a JSON value as the `protocols` map. -/
def unmarshalProtocols : JVal → Option (List (String × protocol))
  | .jobj l => protocolEntries l
  | _ => none

/-- Decoding a marshalled `binding` back through its JSON tags, as Go's
`json.Unmarshal` would populate the struct. -/
def unmarshalBinding (j : JVal) : Option binding := do
  let dash ← (jlookup j "dashboard_url").bind asStr
  let u ← (jlookup j "username").bind asStr
  let pw ← (jlookup j "password").bind asStr
  let hn ← (jlookup j "hostname").bind asStr
  let hns ← (jlookup j "hostnames").bind asStrArr
  let api ← (jlookup j "http_api_uri").bind asStr
  let apis ← (jlookup j "http_api_uris").bind asStrArr
  let uri ← (jlookup j "uri").bind asStr
  let uris ← (jlookup j "uris").bind asStrArr
  let vh ← (jlookup j "vhost").bind asStr
  let tls ← (jlookup j "ssl").bind asBool
  let ps ← (jlookup j "protocols").bind unmarshalProtocols
  some ⟨dash, u, pw, hn, hns, api, apis, uri, uris, vh, tls, ps⟩

/-- A configuration with an empty hostnames sequence (and otherwise
well-formed fields), used to exercise the empty-hostnames behaviour. -/
def emptyHostnamesCfg : Builder where
  MgmtDomain := "10.0.0.9:15672"
  Hostnames := []
  VHost := "%2f"
  Username := "u"
  Password := "p"
  TLS := false
  ProtocolPorts := [("amqp", 5672)]

/-- The Scenario A configuration with the TLS flag raised, exercising the
descriptor behaviour when the config advertises TLS. -/
def scenarioATLS : Builder :=
  { scenarioA with TLS := true }

/-- The Scenario A configuration with an empty vhost. -/
def scenarioAEmptyVhost : Builder :=
  { scenarioA with VHost := "" }

/-- The Scenario B configuration of the spec (§8): two hostnames. -/
def scenarioB : Builder where
  MgmtDomain := "mgmt.example:15672"
  Hostnames := ["h1", "h2"]
  VHost := "%2f"
  Username := "user"
  Password := "pw"
  TLS := false
  ProtocolPorts := [("amqp", 5672)]

/-- The configuration built by the `Bind` call site (bind.go lines 43-50):
its `ProtocolPorts` also carries the unrecognized names `"clustering"` and
`"http"`. -/
def bindCallSiteCfg : Builder where
  MgmtDomain := "10.0.0.5:15672"
  Hostnames := ["10.0.0.5"]
  VHost := "%2f"
  Username := "admin"
  Password := "secret"
  TLS := false
  ProtocolPorts := [("amqp", 5672), ("clustering", 25672), ("http", 15672)]

/-- A configuration with the TLS flag raised and decoy `ProtocolPorts`
entries for `"management"` and `"http"` carrying ports other than 15672. -/
def decoyMgmtCfg : Builder where
  MgmtDomain := "10.1.2.3:15672"
  Hostnames := ["10.1.2.3", "10.1.2.4"]
  VHost := "vh"
  Username := "root"
  Password := "pass"
  TLS := true
  ProtocolPorts := [("amqp", 5671), ("management", 1234), ("http", 9999)]

/-- Claim C1: for the Scenario A configuration (hostnames `["10.0.0.5"]`,
vhost `"%2f"`, username `"u"`, password `"p"`, management endpoint
`"10.0.0.5:15672"`, protocol ports `{"amqp": 5672}`), `Build` returns a
record whose `uri` is `"amqp://u:p@10.0.0.5/%2f"`, whose amqp descriptor
uri is `"amqp://u:p@10.0.0.5:5672/%2f"`, whose management descriptor uri is
`"http://u:p@10.0.0.5:15672/api/"`, and whose `dashboard_url` is
`"http://10.0.0.5:15672/#/login/u/p"`. -/
theorem build_scenarioA :
    ∃ j, scenarioA.Build = .ok j ∧
      jlookup j "uri" = some (.jstr "amqp://u:p@10.0.0.5/%2f") ∧
      (((jlookup j "protocols").bind (fun o => jlookup o "amqp")).bind
        (fun a => jlookup a "uri")) = some (.jstr "amqp://u:p@10.0.0.5:5672/%2f") ∧
      (((jlookup j "protocols").bind (fun o => jlookup o "management")).bind
        (fun a => jlookup a "uri")) = some (.jstr "http://u:p@10.0.0.5:15672/api/") ∧
      jlookup j "dashboard_url" = some (.jstr "http://10.0.0.5:15672/#/login/u/p") :=
  ⟨_, rfl, rfl, rfl, rfl, rfl⟩

/-- Claim C2 counterexample: on the concrete configuration with empty
hostnames, `Build` does not fail fast with a configuration error — the
evaluation of `b.Hostnames[0]` panics with an index-out-of-range runtime
error (there is no configuration-error path anywhere in the code). -/
theorem build_empty_hostnames_no_config_error :
    emptyHostnamesCfg.Build = .panicked ∧
      emptyHostnamesCfg.Build ≠ .configurationError := by
  constructor
  · rfl
  · intro h
    rw [show emptyHostnamesCfg.Build = .panicked from rfl] at h
    exact BuildOutcome.noConfusion h

/-- Claim C2 (amended): for every configuration whose hostnames sequence is
empty, `Build` aborts with the index-out-of-range runtime panic raised by
`b.Hostnames[0]` — it returns no binding record and no `ConfigurationError`
(the code has no such error path). -/
theorem build_empty_hostnames_panics (b : Builder) (h : b.Hostnames = []) :
    b.Build = .panicked := by
  simp [Builder.Build, h]

/-- Witness for `build_empty_hostnames_panics` at the concrete empty-hostnames
configuration. -/
theorem build_empty_hostnames_panics_witness :
    emptyHostnamesCfg.Hostnames = [] ∧ emptyHostnamesCfg.Build = .panicked :=
  ⟨rfl, build_empty_hostnames_panics emptyHostnamesCfg rfl⟩

/-- Claim C9: for every configuration with non-empty hostnames, `Build`
succeeds — it returns the marshalled binding record, and its error branch
(the serialization round-trip failure) is never taken. -/
theorem build_succeeds_nonempty (b : Builder) (h : b.Hostnames ≠ []) :
    b.Build = .ok (marshalBinding b.mkBinding) ∧ b.Build ≠ .encodingError := by
  cases hh : b.Hostnames with
  | nil => exact absurd hh h
  | cons x xs => constructor <;> simp [Builder.Build, hh]

/-- Witness for `build_succeeds_nonempty` at the Scenario A configuration. -/
theorem build_succeeds_nonempty_witness :
    scenarioA.Hostnames ≠ [] ∧
      (scenarioA.Build = .ok (marshalBinding scenarioA.mkBinding) ∧
        scenarioA.Build ≠ .encodingError) :=
  ⟨by decide, build_succeeds_nonempty scenarioA (by decide)⟩

/-- The association list produced by `Builder.protocols` is already sorted
by key, so the key-sorting performed by map marshalling leaves it fixed. -/
theorem sortKV_protocols (b : Builder) : sortKV b.protocols = b.protocols := by
  unfold Builder.protocols
  cases lookupKV "amqp" b.ProtocolPorts <;> rfl

/-- The `"management"` entry of `Builder.protocols` is always the descriptor
built by `addMgmtProtocol`. -/
theorem lookup_management_protocols (b : Builder) :
    lookupKV "management" b.protocols = some b.addMgmtProtocol := by
  unfold Builder.protocols
  cases lookupKV "amqp" b.ProtocolPorts <;> rfl

/-- When `ProtocolPorts` carries an `"amqp"` entry, the `"amqp"` entry of
`Builder.protocols` is the descriptor built by `addAMQPProtocol` with the
hard-coded `tls` argument `false`. -/
theorem lookup_amqp_protocols (b : Builder) (port : Int)
    (hp : lookupKV "amqp" b.ProtocolPorts = some port) :
    lookupKV "amqp" b.protocols = some (b.addAMQPProtocol port false) := by
  unfold Builder.protocols
  rw [hp]
  rfl

/-- Association-list lookup commutes with mapping over the values. -/
theorem lookupKV_map {α β : Type} (f : α → β) (k : String) (l : List (String × α)) :
    lookupKV k (l.map (fun kv => (kv.1, f kv.2))) = (lookupKV k l).map f := by
  induction l with
  | nil => rfl
  | cons x xs ih =>
    cases x with
    | mk k' v => simp [lookupKV]; split <;> simp [ih]

/-- Claim C3: whenever `ProtocolPorts` carries an `"amqp"` entry (and the
hostnames are non-empty so a record is produced), the amqp descriptor of the
binding record advertises `tls = false` — even when the config TLS flag is
true — while the top-level `ssl` field of the record equals the config TLS
flag. -/
theorem amqp_descriptor_tls_false (b : Builder) (port : Int)
    (hne : b.Hostnames ≠ []) (hp : lookupKV "amqp" b.ProtocolPorts = some port) :
    ∃ p, lookupKV "amqp" b.mkBinding.Protocols = some p ∧ p.TLS = false ∧
      b.mkBinding.TLS = b.TLS :=
  ⟨b.addAMQPProtocol port false, lookup_amqp_protocols b port hp, rfl, rfl⟩

/-- Witness for `amqp_descriptor_tls_false` at the Scenario A configuration
with the TLS flag raised. -/
theorem amqp_descriptor_tls_false_witness :
    (scenarioATLS.Hostnames ≠ [] ∧
      lookupKV "amqp" scenarioATLS.ProtocolPorts = some 5672) ∧
    ∃ p, lookupKV "amqp" scenarioATLS.mkBinding.Protocols = some p ∧
      p.TLS = false ∧ scenarioATLS.mkBinding.TLS = scenarioATLS.TLS :=
  ⟨⟨by decide, rfl⟩, amqp_descriptor_tls_false scenarioATLS 5672 (by decide) rfl⟩

/-- Claim C4: for every configuration with non-empty hostnames, the
protocols mapping of the binding record contains the key `"management"`,
whose descriptor has `tls = false`, `path = "/api/"` and `port = 15672` —
regardless of the config TLS flag and of any management/http entry in
`ProtocolPorts`. -/
theorem management_descriptor_invariant (b : Builder) (hne : b.Hostnames ≠ []) :
    ∃ p, lookupKV "management" b.mkBinding.Protocols = some p ∧
      p.TLS = false ∧ p.Path = "/api/" ∧ p.Port = 15672 :=
  ⟨b.addMgmtProtocol, lookup_management_protocols b, rfl, rfl, rfl⟩

/-- Witness for `management_descriptor_invariant` at a configuration with
TLS raised and decoy `"management"`/`"http"` port entries. -/
theorem management_descriptor_invariant_witness :
    decoyMgmtCfg.Hostnames ≠ [] ∧
    ∃ p, lookupKV "management" decoyMgmtCfg.mkBinding.Protocols = some p ∧
      p.TLS = false ∧ p.Path = "/api/" ∧ p.Port = 15672 :=
  ⟨by decide, management_descriptor_invariant decoyMgmtCfg (by decide)⟩

/-- Claim C5: for every configuration with non-empty hostnames, the binding
record satisfies `hostname = hostnames[0]`, its `uris` list is the
primary-protocol URI mapped over `hostnames` (hence same length and order),
and inside every protocol descriptor the `uris` list is the corresponding
per-protocol URI rule mapped over `hostnames` (same length and order). -/
theorem hostname_uris_correspondence (b : Builder) (h0 : String) (t : List String)
    (hh : b.Hostnames = h0 :: t) :
    b.mkBinding.Hostname = h0 ∧
    b.mkBinding.URIs = b.Hostnames.map b.uriForBinding ∧
    b.mkBinding.URIs.length = b.Hostnames.length ∧
    ∀ k p, lookupKV k b.mkBinding.Protocols = some p →
      p.URIs.length = b.Hostnames.length ∧
      p.URIs = b.Hostnames.map (fun hn =>
        if k = "amqp" then b.uriForAMQP hn p.Port else b.uriForManagement hn p.Port) := by
  refine ⟨?_, rfl, ?_, ?_⟩
  · show b.Hostnames.headD "" = h0
    rw [hh]
    rfl
  · show (b.Hostnames.map b.uriForBinding).length = b.Hostnames.length
    simp
  · intro k p hp
    have hp' : lookupKV k b.protocols = some p := hp
    unfold Builder.protocols at hp'
    cases ha : lookupKV "amqp" b.ProtocolPorts with
    | none =>
      rw [ha] at hp'
      by_cases hk : k = "management"
      · subst hk
        simp [lookupKV] at hp'
        subst hp'
        refine ⟨by simp [Builder.addMgmtProtocol, Builder.urisForManagement], ?_⟩
        simp [Builder.addMgmtProtocol, Builder.urisForManagement]
      · exfalso
        simp [lookupKV, hk] at hp'
    | some port =>
      rw [ha] at hp'
      by_cases hk : k = "amqp"
      · subst hk
        simp [lookupKV] at hp'
        subst hp'
        refine ⟨by simp [Builder.addAMQPProtocol, Builder.urisForAMQP], ?_⟩
        simp [Builder.addAMQPProtocol, Builder.urisForAMQP]
      · by_cases hk2 : k = "management"
        · subst hk2
          simp [lookupKV] at hp'
          subst hp'
          refine ⟨by simp [Builder.addMgmtProtocol, Builder.urisForManagement], ?_⟩
          simp [Builder.addMgmtProtocol, Builder.urisForManagement]
        · exfalso
          simp [lookupKV, hk, hk2] at hp'

/-- Witness for `hostname_uris_correspondence` at the two-hostname
Scenario B configuration. -/
theorem hostname_uris_correspondence_witness :
    scenarioB.Hostnames = "h1" :: ["h2"] ∧
      (scenarioB.mkBinding.Hostname = "h1" ∧
        scenarioB.mkBinding.URIs = scenarioB.Hostnames.map scenarioB.uriForBinding ∧
        scenarioB.mkBinding.URIs.length = scenarioB.Hostnames.length ∧
        ∀ k p, lookupKV k scenarioB.mkBinding.Protocols = some p →
          p.URIs.length = scenarioB.Hostnames.length ∧
          p.URIs = scenarioB.Hostnames.map (fun hn =>
            if k = "amqp" then scenarioB.uriForAMQP hn p.Port
            else scenarioB.uriForManagement hn p.Port)) :=
  ⟨rfl, hostname_uris_correspondence scenarioB "h1" ["h2"] rfl⟩

/-- Claim C6: for every configuration, a `ProtocolPorts` key other than
`"amqp"` produces no entry in the protocols mapping of the binding record
(and no error — the construction is total); the key set of the mapping is
therefore contained in `{"amqp", "management"}`. -/
theorem unrecognized_protocols_dropped (b : Builder) (k : String)
    (h1 : k ≠ "amqp") (h2 : k ≠ "management") :
    lookupKV k b.mkBinding.Protocols = none := by
  show lookupKV k b.protocols = none
  unfold Builder.protocols
  cases lookupKV "amqp" b.ProtocolPorts <;> simp [lookupKV, h1, h2]

/-- Witness for `unrecognized_protocols_dropped`: the `Bind` call-site
configuration carries the unrecognized key `"clustering"`, which yields no
descriptor. -/
theorem unrecognized_protocols_dropped_witness :
    (("clustering" : String) ≠ "amqp" ∧ ("clustering" : String) ≠ "management") ∧
      lookupKV "clustering" bindCallSiteCfg.mkBinding.Protocols = none :=
  ⟨⟨by decide, by decide⟩,
    unrecognized_protocols_dropped bindCallSiteCfg "clustering" (by decide) (by decide)⟩

/-- Decoding a marshalled string array recovers the strings. -/
theorem strList_map (l : List String) : strList (l.map .jstr) = some l := by
  induction l with
  | nil => rfl
  | cons x xs ih => simp [strList, asStr, ih]

/-- Decoding a marshalled protocol descriptor recovers every field,
including the `omitempty` ones (an omitted field decodes to the zero value
it was omitted for). -/
theorem unmarshalProtocol_marshal (p : protocol) :
    unmarshalProtocol (marshalProtocol p) = some p := by
  obtain ⟨u, pw, vh, hn, hns, uri, uris, port, tls, path⟩ := p
  by_cases hv : vh = "" <;> by_cases hpp : path = "" <;>
    simp [marshalProtocol, unmarshalProtocol, jlookup, lookupKV, asStr, asInt,
      asBool, asStrArr, strList_map, hv, hpp]

/-- Decoding the marshalled entries of a protocols map recovers the
entries. -/
theorem protocolEntries_marshal (l : List (String × protocol)) :
    protocolEntries (l.map (fun kv => (kv.1, marshalProtocol kv.2))) = some l := by
  induction l with
  | nil => rfl
  | cons kv rest ih =>
    obtain ⟨k, v⟩ := kv
    simp [protocolEntries, unmarshalProtocol_marshal, ih]

/-- Decoding a marshalled binding record recovers every field, provided the
protocols map is key-sorted (which `Builder.protocols` always is). -/
theorem unmarshalBinding_marshal (r : binding) (hs : sortKV r.Protocols = r.Protocols) :
    unmarshalBinding (marshalBinding r) = some r := by
  obtain ⟨dash, u, pw, hn, hns, api, apis, uri, uris, vh, tls, ps⟩ := r
  simp only [marshalBinding] at hs ⊢
  simp [unmarshalBinding, jlookup, lookupKV, asStr, asBool, asStrArr, strList_map,
    unmarshalProtocols, hs, protocolEntries_marshal]

/-- Claim C7: for every configuration with non-empty hostnames, the
encode-then-decode round-trip performed inside `Build` loses no specified
field — decoding the marshalled binding record through the wire-format
field names yields the original record. -/
theorem binding_roundtrip (b : Builder) (hne : b.Hostnames ≠ []) :
    unmarshalBinding (marshalBinding b.mkBinding) = some b.mkBinding :=
  unmarshalBinding_marshal b.mkBinding (sortKV_protocols b)

/-- Witness for `binding_roundtrip` at the Scenario B configuration. -/
theorem binding_roundtrip_witness :
    scenarioB.Hostnames ≠ [] ∧
      unmarshalBinding (marshalBinding scenarioB.mkBinding) = some scenarioB.mkBinding :=
  ⟨by decide, binding_roundtrip scenarioB (by decide)⟩

/-- The field names of a marshalled protocol descriptor: the required eight,
with `vhost` and `path` present exactly when non-empty. -/
theorem jkeys_marshalProtocol (p : protocol) :
    jkeys (marshalProtocol p) = ["username", "password"]
      ++ (if p.VHost = "" then [] else ["vhost"])
      ++ ["host", "hosts", "uri", "uris", "port", "ssl"]
      ++ (if p.Path = "" then [] else ["path"]) := by
  by_cases hv : p.VHost = "" <;> by_cases hpp : p.Path = "" <;>
    simp [marshalProtocol, jkeys, hv, hpp]

/-- Looking a protocol name up in the `protocols` object of the marshalled
record is looking it up in the protocols map and marshalling the result. -/
theorem jlookup_marshalBinding_protocols (b : Builder) (k : String) :
    ((jlookup (marshalBinding b.mkBinding) "protocols").bind (fun o => jlookup o k)) =
      (lookupKV k b.mkBinding.Protocols).map marshalProtocol := by
  show ((jlookup (marshalBinding b.mkBinding) "protocols").bind (fun o => jlookup o k)) =
      (lookupKV k b.protocols).map marshalProtocol
  have h1 : jlookup (marshalBinding b.mkBinding) "protocols" =
      some (.jobj ((sortKV b.protocols).map (fun kv => (kv.1, marshalProtocol kv.2)))) := rfl
  rw [h1, sortKV_protocols]
  simp [jlookup, lookupKV_map]

/-- Claim C8: for every configuration with non-empty hostnames, the encoded
record uses exactly the field names `dashboard_url`, `username`, `password`,
`hostname`, `hostnames`, `http_api_uri`, `http_api_uris`, `uri`, `uris`,
`vhost`, `ssl`, `protocols`, and every protocol descriptor object uses
exactly `username`, `password`, `vhost` (optional), `host`, `hosts`, `uri`,
`uris`, `port`, `ssl`, `path` (optional), the optional fields being omitted
entirely when empty rather than emitted as null or empty. -/
theorem wire_field_names (b : Builder) (hne : b.Hostnames ≠ []) :
    jkeys (marshalBinding b.mkBinding) =
      ["dashboard_url", "username", "password", "hostname", "hostnames",
       "http_api_uri", "http_api_uris", "uri", "uris", "vhost", "ssl", "protocols"] ∧
    ∀ k pj, ((jlookup (marshalBinding b.mkBinding) "protocols").bind (fun o => jlookup o k))
        = some pj →
      ∃ p, lookupKV k b.mkBinding.Protocols = some p ∧ pj = marshalProtocol p ∧
        jkeys pj = ["username", "password"]
          ++ (if p.VHost = "" then [] else ["vhost"])
          ++ ["host", "hosts", "uri", "uris", "port", "ssl"]
          ++ (if p.Path = "" then [] else ["path"]) := by
  refine ⟨rfl, ?_⟩
  intro k pj hpj
  rw [jlookup_marshalBinding_protocols] at hpj
  cases hl : lookupKV k b.mkBinding.Protocols with
  | none => rw [hl] at hpj; exact absurd hpj (by simp)
  | some p =>
    rw [hl] at hpj
    simp at hpj
    refine ⟨p, rfl, hpj.symm, ?_⟩
    rw [← hpj]
    exact jkeys_marshalProtocol p

/-- Witness for `wire_field_names` at the `Bind` call-site configuration. -/
theorem wire_field_names_witness :
    bindCallSiteCfg.Hostnames ≠ [] ∧
      (jkeys (marshalBinding bindCallSiteCfg.mkBinding) =
        ["dashboard_url", "username", "password", "hostname", "hostnames",
         "http_api_uri", "http_api_uris", "uri", "uris", "vhost", "ssl", "protocols"] ∧
      ∀ k pj, ((jlookup (marshalBinding bindCallSiteCfg.mkBinding) "protocols").bind
          (fun o => jlookup o k)) = some pj →
        ∃ p, lookupKV k bindCallSiteCfg.mkBinding.Protocols = some p ∧
          pj = marshalProtocol p ∧
          jkeys pj = ["username", "password"]
            ++ (if p.VHost = "" then [] else ["vhost"])
            ++ ["host", "hosts", "uri", "uris", "port", "ssl"]
            ++ (if p.Path = "" then [] else ["path"])) :=
  ⟨by decide, wire_field_names bindCallSiteCfg (by decide)⟩

/-- Claim C10: for every configuration with an empty vhost, non-empty
hostnames and an `"amqp"` protocol port, the encoded amqp descriptor omits
its `vhost` field entirely (it carries `omitempty`), while the top-level
`vhost` field of the record is still emitted, with the empty-string
value. -/
theorem empty_vhost_omitted (b : Builder) (port : Int)
    (hv : b.VHost = "") (hne : b.Hostnames ≠ [])
    (hp : lookupKV "amqp" b.ProtocolPorts = some port) :
    ∃ pj, ((jlookup (marshalBinding b.mkBinding) "protocols").bind (fun o => jlookup o "amqp"))
        = some pj ∧
      jmember pj "vhost" = false ∧
      jlookup (marshalBinding b.mkBinding) "vhost" = some (.jstr "") := by
  refine ⟨marshalProtocol (b.addAMQPProtocol port false), ?_, ?_, ?_⟩
  · rw [jlookup_marshalBinding_protocols,
      show lookupKV "amqp" b.mkBinding.Protocols = some (b.addAMQPProtocol port false) from
        lookup_amqp_protocols b port hp]
    rfl
  · simp [jmember, jlookup, marshalProtocol, Builder.addAMQPProtocol, hv, lookupKV]
  · have h2 : jlookup (marshalBinding b.mkBinding) "vhost" = some (.jstr b.VHost) := rfl
    rw [h2, hv]

/-- Witness for `empty_vhost_omitted` at the Scenario A configuration with
an empty vhost. -/
theorem empty_vhost_omitted_witness :
    (scenarioAEmptyVhost.VHost = "" ∧ scenarioAEmptyVhost.Hostnames ≠ [] ∧
      lookupKV "amqp" scenarioAEmptyVhost.ProtocolPorts = some 5672) ∧
    ∃ pj, ((jlookup (marshalBinding scenarioAEmptyVhost.mkBinding) "protocols").bind
        (fun o => jlookup o "amqp")) = some pj ∧
      jmember pj "vhost" = false ∧
      jlookup (marshalBinding scenarioAEmptyVhost.mkBinding) "vhost" = some (.jstr "") :=
  ⟨⟨rfl, by decide, rfl⟩, empty_vhost_omitted scenarioAEmptyVhost 5672 rfl (by decide) rfl⟩
